import Mathlib

/-!
Verification of the TheatreService conditional-request protocol
(`src/main.py`): the canonical JSON serializer and SHA-256 ETag engine
(`_calc_etag`), and the theatre CRUD handlers (`create_theatre`,
`get_theatre`, `replace_theatre`, `delete_theatre`) acting on the
in-memory stores (`theatres`, `screens`, `movies`, `showtimes`).

Machine integers do not occur: Python integers are unbounded, and the
32-bit arithmetic inside SHA-256 is modelled on `Nat` with explicit
`% 2 ^ 32` reductions.  Byte strings are `List Nat` with entries below
256.  The Pydantic models in `models/theatre.py` are not part of the
source tree, so the resource field layout is modelled from the spec
(section 3) and from the field names visible in `main.py`.
-/

set_option autoImplicit false
set_option maxRecDepth 100000

/-- Resource identifiers.  Per the spec (section 4.1(c)) a UUID is carried in
its canonical lowercase hyphenated string form, which is also exactly what
`PydanticJSONEncoder.default` emits for a `UUID` value (`str(o)`). -/
abbrev UUID := String

/-- Modelled from the spec: `models/theatre.py` is absent from `src/`, so the
theatre business fields are taken from spec section 3 ("name, address,
capacity, contact info") and the field names used by `list_theatres` in
`main.py` (`name`, `address`, `city`, `state`, `postal_code`, `country`,
`phone`, `email`, `capacity`, `created_at`, `updated_at`).  Optional fields
are `Option`-valued; `model_dump(exclude_none=True)` omits them when they are
`none`.  Timestamps are carried as their ISO-8601 `Z`-suffixed string form,
which is what `PydanticJSONEncoder.default` emits for a `datetime`. -/
structure TheatreFields where
  name : String
  address : Option String
  city : Option String
  state : Option String
  postal_code : Option String
  country : Option String
  phone : Option String
  email : Option String
  capacity : Option Nat
  created_at : String
  updated_at : String
deriving DecidableEq, Repr

/-- Modelled from the spec: the `TheatreCreate` request body carries the
business fields and no identifier (`replace_theatre` builds
`TheatreRead(id=theatre_id, **theatre.model_dump())`). -/
abbrev TheatreCreate := TheatreFields

/-- Modelled from the spec: a stored theatre resource is its identifier
together with the business fields. -/
structure TheatreRead where
  id : UUID
  fields : TheatreFields
deriving DecidableEq, Repr

/-- A JSON value occurring in a theatre `model_dump`: strings (including the
encoder images of `UUID` and `datetime` values) and integers. -/
inductive JVal where
  | str : String → JVal
  | num : Nat → JVal
deriving DecidableEq, Repr

/-- Lowercase hexadecimal digit for a nibble, as produced by Python's
hex formatting: 0-9 then a-f. -/
def hexChar (n : Nat) : Char :=
  if n < 10 then Char.ofNat (48 + n) else Char.ofNat (87 + n)

/-- Four lowercase hex digits, big-endian, as in a JSON `\uXXXX` escape. -/
def hex4 (n : Nat) : List Char :=
  [hexChar (n / 4096 % 16), hexChar (n / 256 % 16), hexChar (n / 16 % 16), hexChar (n % 16)]

/-- One character of `json.dumps` output with the default `ensure_ascii=True`:
quote and backslash are backslash-escaped, printable ASCII is literal, the
five short escapes cover backspace, tab, newline, form feed and carriage
return, every other character becomes `\uXXXX` (a surrogate pair beyond the
basic multilingual plane). -/
def jsonEscapeChar (c : Char) : List Char :=
  let n := c.toNat
  if n = 34 then [Char.ofNat 92, Char.ofNat 34]
  else if n = 92 then [Char.ofNat 92, Char.ofNat 92]
  else if 32 ≤ n ∧ n ≤ 126 then [c]
  else if n = 8 then [Char.ofNat 92, Char.ofNat 98]
  else if n = 9 then [Char.ofNat 92, Char.ofNat 116]
  else if n = 10 then [Char.ofNat 92, Char.ofNat 110]
  else if n = 12 then [Char.ofNat 92, Char.ofNat 102]
  else if n = 13 then [Char.ofNat 92, Char.ofNat 114]
  else if n < 65536 then Char.ofNat 92 :: Char.ofNat 117 :: hex4 n
  else
    (Char.ofNat 92 :: Char.ofNat 117 :: hex4 (55296 + (n - 65536) / 1024))
      ++ (Char.ofNat 92 :: Char.ofNat 117 :: hex4 (56320 + (n - 65536) % 1024))

/-- A JSON string literal: quote, escaped characters, quote. -/
def jsonStringChars (s : String) : List Char :=
  Char.ofNat 34 :: (s.data.map jsonEscapeChar).flatten ++ [Char.ofNat 34]

/-- Render a JSON scalar: strings as escaped literals, integers in decimal
(Python `int` repr). -/
def JVal.renderChars : JVal → List Char
  | .str s => jsonStringChars s
  | .num n => (Nat.repr n).data

/-- Code-point lexicographic string order, the order `sort_keys=True` uses on
the ASCII key names. -/
def charsLe : List Char → List Char → Bool
  | [], _ => true
  | _ :: _, [] => false
  | a :: as, b :: bs =>
      if a.toNat < b.toNat then true
      else if b.toNat < a.toNat then false
      else charsLe as bs

/-- Insert one key-value pair into a key-sorted list. -/
def insertByKey (x : String × JVal) : List (String × JVal) → List (String × JVal)
  | [] => [x]
  | y :: ys => if charsLe x.1.data y.1.data then x :: y :: ys else y :: insertByKey x ys

/-- Sort key-value pairs by key ascending (`sort_keys=True`). -/
def sortByKey (l : List (String × JVal)) : List (String × JVal) :=
  l.foldr insertByKey []

/-- Render sorted pairs with the compact separators `(",", ":")`:
no whitespace anywhere. -/
def renderPairs : List (String × JVal) → List Char
  | [] => []
  | [kv] => jsonStringChars kv.1 ++ Char.ofNat 58 :: kv.2.renderChars
  | kv :: rest =>
      jsonStringChars kv.1 ++ Char.ofNat 58 :: kv.2.renderChars
        ++ Char.ofNat 44 :: renderPairs rest

/-- The full `json.dumps(..., sort_keys=True, separators=(",", ":"))` output
for a dumped object, as characters: braces around the sorted, compactly
rendered pairs. -/
def jsonDumpChars (pairs : List (String × JVal)) : List Char :=
  Char.ofNat 123 :: renderPairs (sortByKey pairs) ++ [Char.ofNat 125]

/-- A present optional field contributes one pair to the dump;
`exclude_none=True` drops an absent one. -/
def optPair (k : String) : Option JVal → List (String × JVal)
  | none => []
  | some v => [(k, v)]

/-- The pairs of `model_dump(exclude_none=True)` for a stored theatre:
identifier and required fields always present, optional fields only when
set.  Listed in declaration order; `sortByKey` later puts them in the
order `sort_keys=True` produces. -/
def TheatreRead.dumpPairs (t : TheatreRead) : List (String × JVal) :=
  [(("id" : String), JVal.str t.id), (("name" : String), JVal.str t.fields.name)]
    ++ optPair "address" (t.fields.address.map JVal.str)
    ++ optPair "city" (t.fields.city.map JVal.str)
    ++ optPair "state" (t.fields.state.map JVal.str)
    ++ optPair "postal_code" (t.fields.postal_code.map JVal.str)
    ++ optPair "country" (t.fields.country.map JVal.str)
    ++ optPair "phone" (t.fields.phone.map JVal.str)
    ++ optPair "email" (t.fields.email.map JVal.str)
    ++ optPair "capacity" (t.fields.capacity.map JVal.num)
    ++ [(("created_at" : String), JVal.str t.fields.created_at),
        (("updated_at" : String), JVal.str t.fields.updated_at)]

/-- The `payload` bytes hashed by `_calc_etag`: the canonical JSON dump,
UTF-8 encoded.  With `ensure_ascii=True` every emitted character is ASCII,
so the UTF-8 bytes are exactly the code points. -/
def payloadBytes (t : TheatreRead) : List Nat :=
  (jsonDumpChars t.dumpPairs).map Char.toNat

/-- The 32-bit modulus of SHA-256 word arithmetic. -/
def w32 : Nat := 4294967296

/-- 32-bit addition: sum reduced mod `2 ^ 32`. -/
def add32 (a b : Nat) : Nat := (a + b) % w32

/-- Right rotation of a 32-bit word by `n` places. -/
def rotr32 (n x : Nat) : Nat := (x / 2 ^ n + x % 2 ^ n * 2 ^ (32 - n)) % w32

/-- Logical right shift of a 32-bit word. -/
def shr32 (n x : Nat) : Nat := x / 2 ^ n

/-- Bitwise complement of a 32-bit word. -/
def not32 (x : Nat) : Nat := x ^^^ (w32 - 1)

/-- SHA-256 choice function. -/
def shaCh (x y z : Nat) : Nat := (x &&& y) ^^^ (not32 x &&& z)

/-- SHA-256 majority function. -/
def shaMaj (x y z : Nat) : Nat := ((x &&& y) ^^^ (x &&& z)) ^^^ (y &&& z)

/-- SHA-256 big Sigma-0. -/
def bSig0 (x : Nat) : Nat := (rotr32 2 x ^^^ rotr32 13 x) ^^^ rotr32 22 x

/-- SHA-256 big Sigma-1. -/
def bSig1 (x : Nat) : Nat := (rotr32 6 x ^^^ rotr32 11 x) ^^^ rotr32 25 x

/-- SHA-256 small sigma-0. -/
def sSig0 (x : Nat) : Nat := (rotr32 7 x ^^^ rotr32 18 x) ^^^ shr32 3 x

/-- SHA-256 small sigma-1. -/
def sSig1 (x : Nat) : Nat := (rotr32 17 x ^^^ rotr32 19 x) ^^^ shr32 10 x

/-- The 64 SHA-256 round constants, in decimal. -/
def shaK : List Nat :=
  [1116352408, 1899447441, 3049323471, 3921009573,
   961987163, 1508970993, 2453635748, 2870763221,
   3624381080, 310598401, 607225278, 1426881987,
   1925078388, 2162078206, 2614888103, 3248222580,
   3835390401, 4022224774, 264347078, 604807628,
   770255983, 1249150122, 1555081692, 1996064986,
   2554220882, 2821834349, 2952996808, 3210313671,
   3336571891, 3584528711, 113926993, 338241895,
   666307205, 773529912, 1294757372, 1396182291,
   1695183700, 1986661051, 2177026350, 2456956037,
   2730485921, 2820302411, 3259730800, 3345764771,
   3516065817, 3600352804, 4094571909, 275423344,
   430227734, 506948616, 659060556, 883997877,
   958139571, 1322822218, 1537002063, 1747873779,
   1955562222, 2024104815, 2227730452, 2361852424,
   2428436474, 2756734187, 3204031479, 3329325298]

/-- The eight SHA-256 working words. -/
structure Hash8 where
  h0 : Nat
  h1 : Nat
  h2 : Nat
  h3 : Nat
  h4 : Nat
  h5 : Nat
  h6 : Nat
  h7 : Nat
deriving DecidableEq, Repr

/-- The SHA-256 initial hash value, in decimal. -/
def shaInit : Hash8 :=
  ⟨1779033703, 3144134277, 1013904242, 2773480762,
   1359893119, 2600822924, 528734635, 1541459225⟩

/-- One SHA-256 compression round, for one schedule word and round constant. -/
def shaRound (st : Hash8) (wk : Nat × Nat) : Hash8 :=
  let t1 := (st.h7 + bSig1 st.h4 + shaCh st.h4 st.h5 st.h6 + wk.2 + wk.1) % w32
  let t2 := (bSig0 st.h0 + shaMaj st.h0 st.h1 st.h2) % w32
  ⟨(t1 + t2) % w32, st.h0, st.h1, st.h2, (st.h3 + t1) % w32, st.h4, st.h5, st.h6⟩

/-- Big-endian packing of bytes into 32-bit words, four at a time. -/
def bytesToWords : List Nat → List Nat
  | a :: b :: c :: d :: rest =>
      (a * 2 ^ 24 + b * 2 ^ 16 + c * 2 ^ 8 + d) % w32 :: bytesToWords rest
  | _ => []

/-- Extend the message schedule, keeping the accumulator newest-first so the
recurrence indexes `t - 2`, `t - 7`, `t - 15`, `t - 16` read positions 1, 6,
14, 15. -/
def scheduleRev : Nat → List Nat → List Nat
  | 0, acc => acc
  | n + 1, acc =>
      let w := (sSig1 (acc.getD 1 0) + acc.getD 6 0 + sSig0 (acc.getD 14 0)
                  + acc.getD 15 0) % w32
      scheduleRev n (w :: acc)

/-- The 64-word message schedule of one 512-bit block. -/
def msgSchedule (block : List Nat) : List Nat :=
  (scheduleRev 48 (bytesToWords block).reverse).reverse

/-- Compress one 64-byte block into the running hash. -/
def shaCompress (st : Hash8) (block : List Nat) : Hash8 :=
  let e := ((msgSchedule block).zip shaK).foldl shaRound st
  ⟨add32 st.h0 e.h0, add32 st.h1 e.h1, add32 st.h2 e.h2, add32 st.h3 e.h3,
   add32 st.h4 e.h4, add32 st.h5 e.h5, add32 st.h6 e.h6, add32 st.h7 e.h7⟩

/-- The message bit length as eight big-endian bytes. -/
def lenBytes8 (n : Nat) : List Nat :=
  [n / 2 ^ 56 % 256, n / 2 ^ 48 % 256, n / 2 ^ 40 % 256, n / 2 ^ 32 % 256,
   n / 2 ^ 24 % 256, n / 2 ^ 16 % 256, n / 2 ^ 8 % 256, n % 256]

/-- SHA-256 padding: a 0x80 byte, zeros to 56 mod 64, then the bit length. -/
def padMessage (msg : List Nat) : List Nat :=
  let l := msg.length
  msg ++ 128 :: List.replicate ((64 + 56 - (l + 1) % 64) % 64) 0
      ++ lenBytes8 (8 * l)

/-- Split a byte string into 64-byte blocks, structurally recursive on a fuel
bound so the kernel can evaluate it; each step consumes at least one byte, so
the length of the string is enough fuel. -/
def toBlocksFuel : Nat → List Nat → List (List Nat)
  | 0, _ => []
  | _, [] => []
  | fuel + 1, bs => bs.take 64 :: toBlocksFuel fuel (bs.drop 64)

/-- Split a byte string into 64-byte blocks. -/
def toBlocks (bs : List Nat) : List (List Nat) :=
  toBlocksFuel bs.length bs

/-- The SHA-256 digest of a byte string, as eight 32-bit words. -/
def sha256Digest (msg : List Nat) : Hash8 :=
  (toBlocks (padMessage msg)).foldl shaCompress shaInit

/-- The four big-endian bytes of a 32-bit word. -/
def wordBytes (w : Nat) : List Nat :=
  [w / 2 ^ 24 % 256, w / 2 ^ 16 % 256, w / 2 ^ 8 % 256, w % 256]

/-- The 32 digest bytes of a hash state. -/
def digestBytes (d : Hash8) : List Nat :=
  wordBytes d.h0 ++ wordBytes d.h1 ++ wordBytes d.h2 ++ wordBytes d.h3
    ++ wordBytes d.h4 ++ wordBytes d.h5 ++ wordBytes d.h6 ++ wordBytes d.h7

/-- Two lowercase hex digits of one byte (`hexdigest` output). -/
def byteHexChars (b : Nat) : List Char :=
  [hexChar (b / 16 % 16), hexChar (b % 16)]

/-- The 64 lowercase hex characters of a digest. -/
def hexOfDigest (d : Hash8) : List Char :=
  ((digestBytes d).map byteHexChars).flatten

/-- Wrap a digest as a quoted strong validator: quote, 64 hex digits, quote
(the f-string in `_calc_etag`). -/
def etagOfDigest (d : Hash8) : String :=
  String.mk (Char.ofNat 34 :: hexOfDigest d ++ [Char.ofNat 34])

/-- `_calc_etag` from `main.py`: the quoted lowercase SHA-256 hexdigest of
the canonical JSON dump of the resource. -/
def _calc_etag (t : TheatreRead) : String :=
  etagOfDigest (sha256Digest (payloadBytes t))

/-- Modelled from the spec: `models/screen.py` is absent from `src/` and every
screen endpoint is an unimplemented stub, so the value type is an opaque
placeholder; only the store itself matters to the theatre claims. -/
structure ScreenRead where
  raw : Nat
deriving DecidableEq, Repr

/-- Modelled from the spec: `models/movie.py` is absent from `src/`; opaque
placeholder as for screens. -/
structure MovieRead where
  raw : Nat
deriving DecidableEq, Repr

/-- Modelled from the spec: `models/showtime.py` is absent from `src/`; opaque
placeholder as for screens. -/
structure ShowtimeRead where
  raw : Nat
deriving DecidableEq, Repr

/-- The module-level in-memory databases of `main.py`: one mapping per
resource kind, identifier to current value (`None` for absent). -/
structure ServiceState where
  theatres : UUID → Option TheatreRead
  screens : UUID → Option ScreenRead
  movies : UUID → Option MovieRead
  showtimes : UUID → Option ShowtimeRead

/-- What a theatre endpoint sends back: the HTTP status, the resource body of
a success, the `ETag` response header when one is set, and the
`HTTPException` detail string of an error. -/
structure TheatreResponse where
  status : Nat
  body : Option TheatreRead
  etagHeader : Option String
  detail : Option String
deriving DecidableEq, Repr

/-- What `delete_theatre` sends back: the status, the echoed identifier of a
successful deletion, and the detail string of an error. -/
structure DeleteResponse where
  status : Nat
  deletedId : Option UUID
  detail : Option String
deriving DecidableEq, Repr

/-- Update one key of a store. -/
def storePut (s : UUID → Option TheatreRead) (k : UUID) (v : Option TheatreRead) :
    UUID → Option TheatreRead :=
  fun j => if j = k then v else s j

/-- `create_theatre` from `main.py`.  `TheatreRead(**theatre.model_dump())`
draws a fresh identifier from the model's default factory, which lives in the
absent `models/theatre.py`; the generated identifier is therefore passed in
explicitly (modelled from the spec: create assigns a new identifier).  The
new resource is stored under its own identifier and the response carries
status 201, the body, and the ETag of the stored value. -/
def create_theatre (newId : UUID) (theatre : TheatreCreate) (st : ServiceState) :
    TheatreResponse × ServiceState :=
  let new_theatre : TheatreRead := ⟨newId, theatre⟩
  (⟨201, some new_theatre, some (_calc_etag new_theatre), none⟩,
   { st with theatres := storePut st.theatres new_theatre.id (some new_theatre) })

/-- `get_theatre` from `main.py` (the handler registered first for
`GET /theatres/{theatre_id}`, lines 136-153; a second function of the same
name at lines 155-161 is registered afterwards and never dispatched to,
since the framework matches routes in registration order).  404 when absent;
304 with the current ETag when `If-None-Match` equals it; otherwise 200 with
body and ETag.  The handler never writes the store. -/
def get_theatre (theatre_id : UUID) (if_none_match : Option String)
    (st : ServiceState) : TheatreResponse × ServiceState :=
  match st.theatres theatre_id with
  | none => (⟨404, none, none, some "Theatre not found"⟩, st)
  | some item =>
      let etag := _calc_etag item
      if if_none_match = some etag then
        (⟨304, none, some etag, none⟩, st)
      else
        (⟨200, some item, some etag, none⟩, st)

/-- `replace_theatre` from `main.py`: 404 when absent; 428 when `If-Match` is
missing; 412 when it differs from the ETag of the stored value; otherwise the
resource is replaced under the same identifier and the response carries 200,
the replacement, and its ETag. -/
def replace_theatre (theatre_id : UUID) (theatre : TheatreCreate)
    (if_match : Option String) (st : ServiceState) :
    TheatreResponse × ServiceState :=
  match st.theatres theatre_id with
  | none => (⟨404, none, none, some "Theatre not found"⟩, st)
  | some existing =>
      let current_etag := _calc_etag existing
      match if_match with
      | none =>
          (⟨428, none, none, some "Precondition Required: missing If-Match"⟩, st)
      | some m =>
          if m ≠ current_etag then
            (⟨412, none, none, some "Precondition Failed: ETag mismatch"⟩, st)
          else
            let replacement : TheatreRead := ⟨theatre_id, theatre⟩
            (⟨200, some replacement, some (_calc_etag replacement), none⟩,
             { st with theatres := storePut st.theatres theatre_id (some replacement) })

/-- `delete_theatre` from `main.py`: 404 when absent; 412 when `If-Match` is
supplied and differs from the current ETag; otherwise the entry is removed
and the response echoes the identifier with the implicit status 200. -/
def delete_theatre (theatre_id : UUID) (if_match : Option String)
    (st : ServiceState) : DeleteResponse × ServiceState :=
  match st.theatres theatre_id with
  | none => (⟨404, none, some "Theatre not found"⟩, st)
  | some existing =>
      let current_etag := _calc_etag existing
      let mismatch := match if_match with
        | some m => m != current_etag
        | none => false
      if mismatch then
        (⟨412, none, some "Precondition Failed: ETag mismatch"⟩, st)
      else
        (⟨200, some theatre_id, none⟩,
         { st with theatres := storePut st.theatres theatre_id none })

/-- Concrete business fields used by the concrete instances below. -/
def sampleFields : TheatreFields :=
  ⟨"Grand Cinema", some "1 Main St", none, none, none, none, none,
   some "a@b.com", some 60, "2024-01-01T00:00:00Z", "2024-01-01T00:00:00Z"⟩

/-- The same fields with a different capacity. -/
def sampleFields2 : TheatreFields := { sampleFields with capacity := some 75 }

/-- A concrete identifier. -/
def idA : UUID := "00000000-0000-4000-8000-000000000000"

/-- A second, distinct concrete identifier. -/
def idB : UUID := "00000000-0000-4000-8000-000000000001"

/-- A concrete stored theatre. -/
def sampleTheatre : TheatreRead := ⟨idA, sampleFields⟩

/-- A state holding exactly `sampleTheatre`. -/
def sampleState : ServiceState :=
  ⟨fun j => if j = idA then some sampleTheatre else none,
   fun _ => none, fun _ => none, fun _ => none⟩

/-- A state holding nothing. -/
def emptyState : ServiceState :=
  ⟨fun _ => none, fun _ => none, fun _ => none, fun _ => none⟩

/-- Sanity anchor: the embedded SHA-256 reproduces the FIPS 180-4 test vector
for the three-byte message abc. -/
theorem sha256_test_vector_abc :
    String.mk (hexOfDigest (sha256Digest [97, 98, 99]))
      = "ba7816bf8f01cfea414140de5dae2223b00361a396177a9cb410ff61f20015ad" := by
  decide

/-- C1: for a stored identifier, PUT without If-Match is rejected with 428;
PUT with a non-matching If-Match is rejected with 412, both leaving the state
untouched; PUT with If-Match equal to the current ETag stores the new field
values under the same identifier, answers 200, and carries the ETag of the
newly stored value; PUT on an absent identifier answers 404 and creates
nothing. -/
theorem C1_replace_protocol (st : ServiceState) (k : UUID) (body : TheatreCreate) :
    (∀ t, st.theatres k = some t →
      replace_theatre k body none st
        = (⟨428, none, none, some "Precondition Required: missing If-Match"⟩, st)) ∧
    (∀ t m, st.theatres k = some t → m ≠ _calc_etag t →
      replace_theatre k body (some m) st
        = (⟨412, none, none, some "Precondition Failed: ETag mismatch"⟩, st)) ∧
    (∀ t, st.theatres k = some t →
      (replace_theatre k body (some (_calc_etag t)) st).1.status = 200 ∧
      (replace_theatre k body (some (_calc_etag t)) st).2.theatres k
          = some (TheatreRead.mk k body) ∧
      (replace_theatre k body (some (_calc_etag t)) st).1.etagHeader
          = some (_calc_etag (TheatreRead.mk k body))) ∧
    (st.theatres k = none → ∀ im,
      (replace_theatre k body im st).1.status = 404 ∧
      (replace_theatre k body im st).2.theatres k = none) := by
  refine ⟨?_, ?_, ?_, ?_⟩
  · intro t ht
    simp [replace_theatre, ht]
  · intro t m ht hm
    simp [replace_theatre, ht, hm]
  · intro t ht
    simp [replace_theatre, ht, storePut]
  · intro hk im
    cases im <;> simp [replace_theatre, hk]

/-- C1 witness: the four branches at concrete inputs. -/
theorem C1_replace_protocol_witness :
    replace_theatre idA sampleFields2 none sampleState
      = (⟨428, none, none, some "Precondition Required: missing If-Match"⟩,
         sampleState) ∧
    replace_theatre idA sampleFields2 (some "stale") sampleState
      = (⟨412, none, none, some "Precondition Failed: ETag mismatch"⟩,
         sampleState) ∧
    (replace_theatre idA sampleFields2 (some (_calc_etag sampleTheatre))
        sampleState).1.status = 200 ∧
    (replace_theatre idA sampleFields2 (some (_calc_etag sampleTheatre))
        sampleState).2.theatres idA = some (TheatreRead.mk idA sampleFields2) ∧
    (replace_theatre idA sampleFields2 (some (_calc_etag sampleTheatre))
        sampleState).1.etagHeader
        = some (_calc_etag (TheatreRead.mk idA sampleFields2)) ∧
    (replace_theatre idB sampleFields2 none sampleState).1.status = 404 ∧
    (replace_theatre idB sampleFields2 none sampleState).2.theatres idB = none := by
  have h1 := (C1_replace_protocol sampleState idA sampleFields2).1 sampleTheatre (by decide)
  have h2 := (C1_replace_protocol sampleState idA sampleFields2).2.1 sampleTheatre
    "stale" (by decide) (by decide)
  have h3 := (C1_replace_protocol sampleState idA sampleFields2).2.2.1 sampleTheatre
    (by decide)
  have h4 := (C1_replace_protocol sampleState idB sampleFields2).2.2.2 (by decide) none
  exact ⟨h1, h2, h3.1, h3.2.1, h3.2.2, h4.1, h4.2⟩

/-- C3: for a stored identifier, GET with If-None-Match equal to the current
ETag answers 304 with no body and the supplied ETag echoed; GET with an
absent or different If-None-Match answers 200 with the stored resource and
the current ETag; GET on an absent identifier answers 404; the state is
returned unchanged in every case. -/
theorem C3_get_protocol (st : ServiceState) (k : UUID) :
    (∀ t, st.theatres k = some t →
      get_theatre k (some (_calc_etag t)) st
        = (⟨304, none, some (_calc_etag t), none⟩, st)) ∧
    (∀ t inm, st.theatres k = some t → inm ≠ some (_calc_etag t) →
      get_theatre k inm st = (⟨200, some t, some (_calc_etag t), none⟩, st)) ∧
    (st.theatres k = none → ∀ inm,
      get_theatre k inm st = (⟨404, none, none, some "Theatre not found"⟩, st)) := by
  refine ⟨?_, ?_, ?_⟩
  · intro t ht
    simp [get_theatre, ht]
  · intro t inm ht hne
    simp [get_theatre, ht, hne]
  · intro hk inm
    simp [get_theatre, hk]

/-- C3 witness: the three branches at concrete inputs. -/
theorem C3_get_protocol_witness :
    get_theatre idA (some (_calc_etag sampleTheatre)) sampleState
      = (⟨304, none, some (_calc_etag sampleTheatre), none⟩, sampleState) ∧
    get_theatre idA none sampleState
      = (⟨200, some sampleTheatre, some (_calc_etag sampleTheatre), none⟩,
         sampleState) ∧
    get_theatre idB none sampleState
      = (⟨404, none, none, some "Theatre not found"⟩, sampleState) := by
  have h1 := (C3_get_protocol sampleState idA).1 sampleTheatre (by decide)
  have h2 := (C3_get_protocol sampleState idA).2.1 sampleTheatre none (by decide)
    (by decide)
  have h3 := (C3_get_protocol sampleState idB).2.2 (by decide) none
  exact ⟨h1, h2, h3⟩

/-- C4: for a stored identifier, DELETE with a mismatched If-Match answers
412 and the resource is still present; DELETE with no If-Match or a matching
one answers 200, removes the entry, and a subsequent GET answers 404; DELETE
on an absent identifier answers 404. -/
theorem C4_delete_protocol (st : ServiceState) (k : UUID) :
    (∀ t m, st.theatres k = some t → m ≠ _calc_etag t →
      delete_theatre k (some m) st
        = (⟨412, none, some "Precondition Failed: ETag mismatch"⟩, st) ∧
      (delete_theatre k (some m) st).2.theatres k = some t) ∧
    (∀ t, st.theatres k = some t →
      (delete_theatre k none st).1.status = 200 ∧
      (delete_theatre k none st).2.theatres k = none ∧
      (∀ inm, (get_theatre k inm (delete_theatre k none st).2).1.status = 404) ∧
      (delete_theatre k (some (_calc_etag t)) st).1.status = 200 ∧
      (delete_theatre k (some (_calc_etag t)) st).2.theatres k = none ∧
      (∀ inm,
        (get_theatre k inm (delete_theatre k (some (_calc_etag t)) st).2).1.status
          = 404)) ∧
    (st.theatres k = none → ∀ im,
      delete_theatre k im st = (⟨404, none, some "Theatre not found"⟩, st)) := by
  refine ⟨?_, ?_, ?_⟩
  · intro t m ht hm
    refine ⟨?_, ?_⟩ <;> simp [delete_theatre, ht, hm]
  · intro t ht
    refine ⟨?_, ?_, fun inm => ?_, ?_, ?_, fun inm => ?_⟩ <;>
      simp [delete_theatre, get_theatre, ht, storePut]
  · intro hk im
    simp [delete_theatre, hk]

/-- C4 witness: the branches at concrete inputs. -/
theorem C4_delete_protocol_witness :
    delete_theatre idA (some "stale") sampleState
      = (⟨412, none, some "Precondition Failed: ETag mismatch"⟩, sampleState) ∧
    (delete_theatre idA (some "stale") sampleState).2.theatres idA
      = some sampleTheatre ∧
    (delete_theatre idA none sampleState).1.status = 200 ∧
    (delete_theatre idA none sampleState).2.theatres idA = none ∧
    (get_theatre idA none (delete_theatre idA none sampleState).2).1.status = 404 ∧
    delete_theatre idB none sampleState
      = (⟨404, none, some "Theatre not found"⟩, sampleState) := by
  have h1 := (C4_delete_protocol sampleState idA).1 sampleTheatre "stale"
    (by decide) (by decide)
  have h2 := (C4_delete_protocol sampleState idA).2.1 sampleTheatre (by decide)
  have h3 := (C4_delete_protocol sampleState idB).2.2 (by decide) none
  exact ⟨h1.1, h1.2, h2.1, h2.2.1, h2.2.2.1 none, h3⟩

/-- C5: every error outcome (GET 404; PUT 404, 428 or 412; DELETE 404 or 412)
returns the state exactly as it was: the store is written only after the
precondition check has succeeded. -/
theorem C5_errors_preserve_store (st : ServiceState) (k : UUID)
    (body : TheatreCreate) :
    (∀ inm, (get_theatre k inm st).1.status = 404 → (get_theatre k inm st).2 = st) ∧
    (∀ im, (replace_theatre k body im st).1.status = 404 ∨
           (replace_theatre k body im st).1.status = 428 ∨
           (replace_theatre k body im st).1.status = 412 →
           (replace_theatre k body im st).2 = st) ∧
    (∀ im, (delete_theatre k im st).1.status = 404 ∨
           (delete_theatre k im st).1.status = 412 →
           (delete_theatre k im st).2 = st) := by
  refine ⟨?_, ?_, ?_⟩
  · intro inm _
    cases hk : st.theatres k with
    | none => simp [get_theatre, hk]
    | some t =>
        by_cases hm : inm = some (_calc_etag t) <;> simp [get_theatre, hk, hm]
  · intro im him
    cases hk : st.theatres k with
    | none => simp [replace_theatre, hk]
    | some t =>
        cases im with
        | none => simp [replace_theatre, hk]
        | some m =>
            by_cases hm : m = _calc_etag t
            · simp [replace_theatre, hk, hm] at him
            · simp [replace_theatre, hk, hm]
  · intro im him
    cases hk : st.theatres k with
    | none => simp [delete_theatre, hk]
    | some t =>
        cases im with
        | none => simp [delete_theatre, hk] at him
        | some m =>
            by_cases hm : m = _calc_etag t
            · simp [delete_theatre, hk, hm] at him
            · simp [delete_theatre, hk, hm]

/-- C5 witness: one error of each handler at concrete inputs leaves the
state untouched. -/
theorem C5_errors_preserve_store_witness :
    (get_theatre idB none sampleState).2 = sampleState ∧
    (replace_theatre idA sampleFields2 none sampleState).2 = sampleState ∧
    (delete_theatre idA (some "stale") sampleState).2 = sampleState := by
  have h1 := (C5_errors_preserve_store sampleState idB sampleFields2).1 none
    (by decide)
  have h2 := (C5_errors_preserve_store sampleState idA sampleFields2).2.1 none
    (Or.inr (Or.inl (by decide)))
  have h3 := (C5_errors_preserve_store sampleState idA sampleFields2).2.2
    (some "stale") (Or.inr (by decide))
  exact ⟨h1, h2, h3⟩

/-- C6: create stores the new theatre under the assigned identifier and
answers 201 with the stored value and its ETag.  The identifier itself is
drawn by the absent Pydantic model's default factory and is passed in
explicitly, modelled from the spec. -/
theorem C6_create_theatre (st : ServiceState) (newId : UUID)
    (body : TheatreCreate) :
    (create_theatre newId body st).1.status = 201 ∧
    (create_theatre newId body st).1.body = some (TheatreRead.mk newId body) ∧
    (create_theatre newId body st).2.theatres newId
        = some (TheatreRead.mk newId body) ∧
    (create_theatre newId body st).1.etagHeader
        = some (_calc_etag (TheatreRead.mk newId body)) := by
  refine ⟨rfl, rfl, ?_, rfl⟩
  simp [create_theatre, storePut]

/-- C7: the ETag is a pure function of the resource's current field values:
value-identical resources have identical ETags, and recomputing without
mutation reproduces the same string. -/
theorem C7_etag_deterministic (t1 t2 : TheatreRead) (hid : t1.id = t2.id)
    (hf : t1.fields = t2.fields) :
    _calc_etag t1 = _calc_etag t2 ∧ _calc_etag t1 = _calc_etag t1 := by
  obtain ⟨i1, f1⟩ := t1
  obtain ⟨i2, f2⟩ := t2
  cases hid
  cases hf
  exact ⟨rfl, rfl⟩

/-- C7 witness: determinism at a concrete resource. -/
theorem C7_etag_deterministic_witness :
    _calc_etag sampleTheatre = _calc_etag sampleTheatre := by
  exact (C7_etag_deterministic sampleTheatre sampleTheatre rfl rfl).1

/-- Helper: the GET handler returns the state it was given. -/
theorem get_theatre_preserves_state (k : UUID) (inm : Option String)
    (st : ServiceState) : (get_theatre k inm st).2 = st := by
  cases hk : st.theatres k with
  | none => simp [get_theatre, hk]
  | some t => by_cases hm : inm = some (_calc_etag t) <;> simp [get_theatre, hk, hm]

/-- C10: every theatre operation on identifier k touches at most the
theatres entry at k; every other theatres entry and the screens, movies and
showtimes stores are returned unchanged. -/
theorem C10_frame (st : ServiceState) (k : UUID) (body : TheatreCreate)
    (im inm : Option String) :
    ((create_theatre k body st).2.screens = st.screens ∧
     (create_theatre k body st).2.movies = st.movies ∧
     (create_theatre k body st).2.showtimes = st.showtimes ∧
     ∀ j, j ≠ k → (create_theatre k body st).2.theatres j = st.theatres j) ∧
    ((get_theatre k inm st).2.screens = st.screens ∧
     (get_theatre k inm st).2.movies = st.movies ∧
     (get_theatre k inm st).2.showtimes = st.showtimes ∧
     ∀ j, j ≠ k → (get_theatre k inm st).2.theatres j = st.theatres j) ∧
    ((replace_theatre k body im st).2.screens = st.screens ∧
     (replace_theatre k body im st).2.movies = st.movies ∧
     (replace_theatre k body im st).2.showtimes = st.showtimes ∧
     ∀ j, j ≠ k → (replace_theatre k body im st).2.theatres j = st.theatres j) ∧
    ((delete_theatre k im st).2.screens = st.screens ∧
     (delete_theatre k im st).2.movies = st.movies ∧
     (delete_theatre k im st).2.showtimes = st.showtimes ∧
     ∀ j, j ≠ k → (delete_theatre k im st).2.theatres j = st.theatres j) := by
  refine ⟨⟨rfl, rfl, rfl, ?_⟩, ?_, ?_, ?_⟩
  · intro j hj
    simp [create_theatre, storePut, hj]
  · rw [get_theatre_preserves_state]
    exact ⟨rfl, rfl, rfl, fun _ _ => rfl⟩
  · cases hk : st.theatres k with
    | none => simp [replace_theatre, hk]
    | some t =>
        cases im with
        | none => simp [replace_theatre, hk]
        | some m =>
            by_cases hm : m = _calc_etag t
            · refine ⟨?_, ?_, ?_, fun j hj => ?_⟩
              · simp [replace_theatre, hk, hm]
              · simp [replace_theatre, hk, hm]
              · simp [replace_theatre, hk, hm]
              · simp [replace_theatre, hk, hm, storePut, hj]
            · simp [replace_theatre, hk, hm]
  · cases hk : st.theatres k with
    | none => simp [delete_theatre, hk]
    | some t =>
        cases im with
        | none =>
            refine ⟨?_, ?_, ?_, fun j hj => ?_⟩
            · simp [delete_theatre, hk]
            · simp [delete_theatre, hk]
            · simp [delete_theatre, hk]
            · simp [delete_theatre, hk, storePut, hj]
        | some m =>
            by_cases hm : m = _calc_etag t
            · refine ⟨?_, ?_, ?_, fun j hj => ?_⟩
              · simp [delete_theatre, hk, hm]
              · simp [delete_theatre, hk, hm]
              · simp [delete_theatre, hk, hm]
              · simp [delete_theatre, hk, hm, storePut, hj]
            · simp [delete_theatre, hk, hm]

/-- C10 witness: a mutating operation at one concrete identifier leaves the
entry at a distinct identifier and the other stores untouched. -/
theorem C10_frame_witness :
    (delete_theatre idA none sampleState).2.theatres idB
        = sampleState.theatres idB ∧
    (delete_theatre idA none sampleState).2.screens = sampleState.screens ∧
    (create_theatre idB sampleFields2 sampleState).2.theatres idA
        = sampleState.theatres idA ∧
    (replace_theatre idA sampleFields2 none sampleState).2.theatres idB
        = sampleState.theatres idB := by
  have h := C10_frame sampleState idA sampleFields2 none none
  have h2 := C10_frame sampleState idB sampleFields2 none none
  exact ⟨(h.2.2.2).2.2.2 idB (by decide), (h.2.2.2).1,
         (h2.1).2.2.2 idA (by decide), (h.2.2.1).2.2.2 idB (by decide)⟩

/-- A second theatre holding the same business fields as `sampleTheatre`
under the distinct identifier `idB`. -/
def twinTheatre : TheatreRead := ⟨idB, sampleFields⟩

/-- A state holding `sampleTheatre` under `idA` and `twinTheatre` under
`idB`. -/
def twinState : ServiceState :=
  ⟨fun j => if j = idA then some sampleTheatre
            else if j = idB then some twinTheatre else none,
   fun _ => none, fun _ => none, fun _ => none⟩

/-- C2 counterexample: two stored theatres under distinct identifiers with
field-for-field identical business fields have different ETags — the id
field is part of the hashed payload, so the ETag is not purely
content-addressed. -/
theorem C2_counterexample :
    twinState.theatres idA = some sampleTheatre ∧
    twinState.theatres idB = some twinTheatre ∧
    sampleTheatre.fields = twinTheatre.fields ∧
    sampleTheatre.id ≠ twinTheatre.id ∧
    _calc_etag sampleTheatre ≠ _calc_etag twinTheatre := by
  exact ⟨by decide, by decide, rfl, by decide, by decide⟩

/-- C2 amended: the ETag depends on the whole serialized representation,
identifier included: two theatres agreeing on the identifier and on every
business field have identical ETags; equal business fields alone do not
suffice (see the counterexample). -/
theorem C2_amended_etag_content (t1 t2 : TheatreRead) (hid : t1.id = t2.id)
    (hf : t1.fields = t2.fields) : _calc_etag t1 = _calc_etag t2 := by
  obtain ⟨i1, f1⟩ := t1
  obtain ⟨i2, f2⟩ := t2
  cases hid
  cases hf
  rfl

/-- C2 amended witness: equal representation at a concrete input gives an
equal ETag. -/
theorem C2_amended_etag_content_witness :
    _calc_etag (TheatreRead.mk idA sampleFields)
      = _calc_etag (TheatreRead.mk idA sampleFields) := by
  exact C2_amended_etag_content (TheatreRead.mk idA sampleFields)
    (TheatreRead.mk idA sampleFields) rfl rfl

/-- A character of a lowercase hexadecimal digit: 0-9 or a-f. -/
def isLowerHexDigit (c : Char) : Bool :=
  (48 ≤ c.toNat && c.toNat ≤ 57) || (97 ≤ c.toNat && c.toNat ≤ 102)

/-- A well-formed strong validator: a double quote, 64 lowercase hex digits,
a double quote. -/
def EtagWellFormed (s : String) : Prop :=
  ∃ l : List Char, s.data = Char.ofNat 34 :: l ++ [Char.ofNat 34]
    ∧ l.length = 64 ∧ ∀ c ∈ l, isLowerHexDigit c = true

/-- Helper: every nibble maps to a lowercase hex digit. -/
theorem hexChar_isLowerHex (n : Nat) (h : n < 16) :
    isLowerHexDigit (hexChar n) = true := by
  have hfin : ∀ m : Fin 16, isLowerHexDigit (hexChar m.val) = true := by decide
  exact hfin ⟨n, h⟩

/-- Helper: both characters of a byte's hex rendering are lowercase hex
digits. -/
theorem mem_byteHexChars_isLowerHex {c : Char} {b : Nat}
    (h : c ∈ byteHexChars b) : isLowerHexDigit c = true := by
  simp [byteHexChars] at h
  rcases h with h | h <;> subst h <;>
    exact hexChar_isLowerHex _ (Nat.mod_lt _ (by decide))

/-- Helper: a digest renders as exactly 64 characters. -/
theorem length_hexOfDigest (d : Hash8) : (hexOfDigest d).length = 64 := by
  simp [hexOfDigest, digestBytes, wordBytes, byteHexChars]

/-- Helper: every character of a rendered digest is a lowercase hex digit. -/
theorem mem_hexOfDigest_isLowerHex {d : Hash8} {c : Char}
    (h : c ∈ hexOfDigest d) : isLowerHexDigit c = true := by
  simp only [hexOfDigest, List.mem_flatten, List.mem_map] at h
  obtain ⟨l, ⟨b, _, rfl⟩, hc⟩ := h
  exact mem_byteHexChars_isLowerHex hc

/-- Helper: every computed ETag is well formed. -/
theorem etag_wellFormed (t : TheatreRead) : EtagWellFormed (_calc_etag t) := by
  exact ⟨hexOfDigest (sha256Digest (payloadBytes t)), rfl,
    length_hexOfDigest _, fun c hc => mem_hexOfDigest_isLowerHex hc⟩

/-- C9: every ETag header the service produces — by POST (create), GET and
PUT (replace) — is a double quote, 64 lowercase hexadecimal characters and a
double quote. -/
theorem C9_etag_format (st : ServiceState) (k : UUID) (body : TheatreCreate)
    (im inm : Option String) (e : String) :
    ((create_theatre k body st).1.etagHeader = some e → EtagWellFormed e) ∧
    ((get_theatre k inm st).1.etagHeader = some e → EtagWellFormed e) ∧
    ((replace_theatre k body im st).1.etagHeader = some e → EtagWellFormed e) := by
  refine ⟨?_, ?_, ?_⟩
  · intro h
    simp [create_theatre] at h
    exact h ▸ etag_wellFormed _
  · intro h
    cases hk : st.theatres k with
    | none => simp [get_theatre, hk] at h
    | some t =>
        by_cases hm : inm = some (_calc_etag t) <;>
          simp [get_theatre, hk, hm] at h <;>
          exact h ▸ etag_wellFormed t
  · intro h
    cases hk : st.theatres k with
    | none => simp [replace_theatre, hk] at h
    | some t =>
        cases im with
        | none => simp [replace_theatre, hk] at h
        | some m =>
            by_cases hm : m = _calc_etag t
            · simp [replace_theatre, hk, hm] at h
              exact h ▸ etag_wellFormed _
            · simp [replace_theatre, hk, hm] at h

/-- C9 witness: a concretely produced header is well formed. -/
theorem C9_etag_format_witness :
    EtagWellFormed (_calc_etag (TheatreRead.mk idA sampleFields)) := by
  exact (C9_etag_format emptyState idA sampleFields none none
    (_calc_etag (TheatreRead.mk idA sampleFields))).1 rfl

/-- All eight words of a hash state are 32-bit values. -/
def HashBounded (d : Hash8) : Prop :=
  d.h0 < w32 ∧ d.h1 < w32 ∧ d.h2 < w32 ∧ d.h3 < w32 ∧
  d.h4 < w32 ∧ d.h5 < w32 ∧ d.h6 < w32 ∧ d.h7 < w32

/-- Helper: compression always yields 32-bit words. -/
theorem shaCompress_bounded (st : Hash8) (block : List Nat) :
    HashBounded (shaCompress st block) := by
  have hp : 0 < w32 := by decide
  simp only [HashBounded, shaCompress, add32]
  exact ⟨Nat.mod_lt _ hp, Nat.mod_lt _ hp, Nat.mod_lt _ hp, Nat.mod_lt _ hp,
    Nat.mod_lt _ hp, Nat.mod_lt _ hp, Nat.mod_lt _ hp, Nat.mod_lt _ hp⟩

/-- Helper: folding compression preserves boundedness. -/
theorem foldl_shaCompress_bounded (blocks : List (List Nat)) (st : Hash8)
    (h : HashBounded st) : HashBounded (blocks.foldl shaCompress st) := by
  induction blocks generalizing st with
  | nil => exact h
  | cons b bs ih => exact ih _ (shaCompress_bounded st b)

/-- Helper: every digest consists of 32-bit words. -/
theorem sha256Digest_bounded (msg : List Nat) : HashBounded (sha256Digest msg) :=
  foldl_shaCompress_bounded _ _ (by unfold HashBounded; decide)

/-- Helper: hash states agreeing on all eight words are equal. -/
theorem Hash8.eq_of_words {d1 d2 : Hash8} (e0 : d1.h0 = d2.h0)
    (e1 : d1.h1 = d2.h1) (e2 : d1.h2 = d2.h2) (e3 : d1.h3 = d2.h3)
    (e4 : d1.h4 = d2.h4) (e5 : d1.h5 = d2.h5) (e6 : d1.h6 = d2.h6)
    (e7 : d1.h7 = d2.h7) : d1 = d2 := by
  cases d1
  cases d2
  simp_all

/-- Two theatre values differ in a visible field when some serialized
business field takes different values. -/
def VisiblyDiffer (t1 t2 : TheatreRead) : Prop :=
  t1.fields.name ≠ t2.fields.name ∨ t1.fields.address ≠ t2.fields.address ∨
  t1.fields.city ≠ t2.fields.city ∨ t1.fields.state ≠ t2.fields.state ∨
  t1.fields.postal_code ≠ t2.fields.postal_code ∨
  t1.fields.country ≠ t2.fields.country ∨ t1.fields.phone ≠ t2.fields.phone ∨
  t1.fields.email ≠ t2.fields.email ∨ t1.fields.capacity ≠ t2.fields.capacity ∨
  t1.fields.created_at ≠ t2.fields.created_at ∨
  t1.fields.updated_at ≠ t2.fields.updated_at

/-- The name consisting of n letters a. -/
def nameOf (n : Nat) : String := String.mk (List.replicate n (Char.ofNat 97))

/-- A family of theatres identical except for ever longer names. -/
def pigeonTheatre (n : Nat) : TheatreRead :=
  ⟨idA, { sampleFields with name := nameOf n }⟩

/-- The digest of the nth family member, packaged into a finite type. -/
def pigeonMap (n : Nat) :
    Fin w32 × Fin w32 × Fin w32 × Fin w32 × Fin w32 × Fin w32 × Fin w32
      × Fin w32 :=
  let d := sha256Digest (payloadBytes (pigeonTheatre n))
  let h := sha256Digest_bounded (payloadBytes (pigeonTheatre n))
  (⟨d.h0, h.1⟩, ⟨d.h1, h.2.1⟩, ⟨d.h2, h.2.2.1⟩, ⟨d.h3, h.2.2.2.1⟩,
   ⟨d.h4, h.2.2.2.2.1⟩, ⟨d.h5, h.2.2.2.2.2.1⟩, ⟨d.h6, h.2.2.2.2.2.2.1⟩,
   ⟨d.h7, h.2.2.2.2.2.2.2⟩)

/-- C8 counterexample: absolute change-sensitivity is refuted by pigeonhole:
the digest space is finite while a visible field ranges over infinitely many
values, so two theatres differing only in the name must share an ETag.  No
explicit collision is computable, but the universal claim is provably
false. -/
theorem C8_counterexample :
    ¬ (∀ t1 t2 : TheatreRead, VisiblyDiffer t1 t2 →
        _calc_etag t1 ≠ _calc_etag t2) := by
  intro hclaim
  obtain ⟨m, n, hmn, heq⟩ := Finite.exists_ne_map_eq_of_infinite pigeonMap
  simp only [pigeonMap, Prod.mk.injEq, Fin.mk.injEq] at heq
  have hd : sha256Digest (payloadBytes (pigeonTheatre m))
      = sha256Digest (payloadBytes (pigeonTheatre n)) :=
    Hash8.eq_of_words heq.1 heq.2.1 heq.2.2.1 heq.2.2.2.1 heq.2.2.2.2.1
      heq.2.2.2.2.2.1 heq.2.2.2.2.2.2.1 heq.2.2.2.2.2.2.2
  have hetag : _calc_etag (pigeonTheatre m) = _calc_etag (pigeonTheatre n) := by
    unfold _calc_etag
    rw [hd]
  have hname : (pigeonTheatre m).fields.name ≠ (pigeonTheatre n).fields.name := by
    simp only [pigeonTheatre, nameOf]
    intro hcon
    apply hmn
    have hl : List.replicate m (Char.ofNat 97) = List.replicate n (Char.ofNat 97) := by
      simpa using congrArg String.data hcon
    simpa using congrArg List.length hl
  exact hclaim _ _ (Or.inl hname) hetag

/-- Helper: the hex digit map is injective on nibbles. -/
theorem hexChar_inj {x y : Nat} (hx : x < 16) (hy : y < 16)
    (h : hexChar x = hexChar y) : x = y := by
  have hfin : ∀ a b : Fin 16, hexChar a.val = hexChar b.val → a = b := by decide
  simpa using congrArg Fin.val (hfin ⟨x, hx⟩ ⟨y, hy⟩ h)

/-- Helper: hex rendering of byte strings is injective below 256. -/
theorem byteHex_flatten_inj : ∀ bs1 bs2 : List Nat, (∀ b ∈ bs1, b < 256) →
    (∀ b ∈ bs2, b < 256) →
    (bs1.map byteHexChars).flatten = (bs2.map byteHexChars).flatten →
    bs1 = bs2 := by
  intro bs1
  induction bs1 with
  | nil =>
      intro bs2 _ _ h
      cases bs2 with
      | nil => rfl
      | cons b bs => simp [byteHexChars] at h
  | cons a as ih =>
      intro bs2 h1 h2 h
      cases bs2 with
      | nil => simp [byteHexChars] at h
      | cons b bs =>
          simp only [List.map_cons, List.flatten_cons, byteHexChars,
            List.cons_append, List.nil_append, List.cons.injEq] at h
          have ha : a < 256 := h1 a (by simp)
          have hb : b < 256 := h2 b (by simp)
          have e1 := hexChar_inj (Nat.mod_lt _ (by decide)) (Nat.mod_lt _ (by decide)) h.1
          have e2 := hexChar_inj (Nat.mod_lt _ (by decide)) (Nat.mod_lt _ (by decide)) h.2.1
          have hab : a = b := by omega
          subst hab
          have hrest := ih bs (fun x hx => h1 x (by simp [hx]))
            (fun x hx => h2 x (by simp [hx])) h.2.2
          simp [hrest]

/-- Helper: the four bytes of a word are bytes. -/
theorem mem_wordBytes_lt {b w : Nat} (h : b ∈ wordBytes w) : b < 256 := by
  simp [wordBytes] at h
  rcases h with rfl | rfl | rfl | rfl <;> exact Nat.mod_lt _ (by decide)

/-- Helper: digest bytes are bytes. -/
theorem mem_digestBytes_lt {b : Nat} {d : Hash8} (h : b ∈ digestBytes d) :
    b < 256 := by
  simp only [digestBytes, List.mem_append] at h
  rcases h with ((((((h | h) | h) | h) | h) | h) | h) | h <;>
    exact mem_wordBytes_lt h

/-- Helper: a bounded hash state is recoverable from its digest bytes. -/
theorem digestBytes_inj {d1 d2 : Hash8} (h1 : HashBounded d1)
    (h2 : HashBounded d2) (h : digestBytes d1 = digestBytes d2) : d1 = d2 := by
  simp only [digestBytes, wordBytes, List.cons_append, List.nil_append,
    List.cons.injEq, and_true] at h
  obtain ⟨b0, b1, b2, b3, b4, b5, b6, b7⟩ := h1
  obtain ⟨c0, c1, c2, c3, c4, c5, c6, c7⟩ := h2
  simp only [w32] at b0 b1 b2 b3 b4 b5 b6 b7 c0 c1 c2 c3 c4 c5 c6 c7
  refine Hash8.eq_of_words ?_ ?_ ?_ ?_ ?_ ?_ ?_ ?_ <;> omega

/-- Helper: the quoted hex validator determines the bounded digest. -/
theorem etagOfDigest_inj {d1 d2 : Hash8} (h1 : HashBounded d1)
    (h2 : HashBounded d2) (h : etagOfDigest d1 = etagOfDigest d2) : d1 = d2 := by
  have hdata : Char.ofNat 34 :: (hexOfDigest d1 ++ [Char.ofNat 34])
      = Char.ofNat 34 :: (hexOfDigest d2 ++ [Char.ofNat 34]) :=
    congrArg String.data h
  injection hdata with hq htail
  have hmid : hexOfDigest d1 = hexOfDigest d2 := List.append_cancel_right htail
  simp only [hexOfDigest] at hmid
  exact digestBytes_inj h1 h2
    (byteHex_flatten_inj _ _ (fun b hb => mem_digestBytes_lt hb)
      (fun b hb => mem_digestBytes_lt hb) hmid)

/-- C8 amended: mutating a visible field changes the ETag exactly when it
changes the SHA-256 digest of the canonical payload: two theatres differing
in a visible field whose payload digests differ have different ETags.
Unconditional change-sensitivity is impossible (see the counterexample). -/
theorem C8_amended_change_sensitive (t1 t2 : TheatreRead)
    (hv : VisiblyDiffer t1 t2)
    (h : sha256Digest (payloadBytes t1) ≠ sha256Digest (payloadBytes t2)) :
    _calc_etag t1 ≠ _calc_etag t2 := by
  intro he
  simp only [_calc_etag] at he
  exact h (etagOfDigest_inj (sha256Digest_bounded _) (sha256Digest_bounded _) he)

/-- C8 amended witness: a concrete capacity change alters the digest, hence
the ETag. -/
theorem C8_amended_change_sensitive_witness :
    VisiblyDiffer sampleTheatre (TheatreRead.mk idA sampleFields2) ∧
    sha256Digest (payloadBytes sampleTheatre)
      ≠ sha256Digest (payloadBytes (TheatreRead.mk idA sampleFields2)) ∧
    _calc_etag sampleTheatre ≠ _calc_etag (TheatreRead.mk idA sampleFields2) := by
  have hv : VisiblyDiffer sampleTheatre (TheatreRead.mk idA sampleFields2) := by
    unfold VisiblyDiffer
    decide
  have hd : sha256Digest (payloadBytes sampleTheatre)
      ≠ sha256Digest (payloadBytes (TheatreRead.mk idA sampleFields2)) := by
    decide
  exact ⟨hv, hd, C8_amended_change_sensitive _ _ hv hd⟩
